import Mathlib

/-!
Shallow embedding of `src/components/script/dom/request.rs` (the Fetch
`Request` constructor and body-consumption pipeline of servo).

External collaborators that are part of this repository but not under
`src/` (the `url` resolution library, `dom/headers.rs`, `net_traits`
request defaults, the body-extraction trait) are modelled at their
interface boundary, as parameters of an `Env` record or as definitions
whose doc comment starts with `Modelled from the spec:`.
-/

set_option maxRecDepth 4000
set_option linter.dupNamespace false

namespace Servo


/-- A byte string (`ByteString` of the bindings layer): a list of byte
values (each `< 256`, not enforced by the type). -/
abbrev ByteString := List Nat

/-- ASCII lowercasing of one byte, as `ByteString::to_lower` does per byte. -/
def byteToLower (b : Nat) : Nat := if 65 ≤ b ∧ b ≤ 90 then b + 32 else b

/-- `ByteString::to_lower`: ASCII-lowercase every byte. -/
def byteStringToLower (m : ByteString) : ByteString := m.map byteToLower

/-- The byte encoding of an ASCII string literal (for ASCII strings the
UTF-8 encoding is exactly the code points). -/
def asciiBytes (s : String) : ByteString := s.data.map Char.toNat

/-- `ByteString::as_str` (partial UTF-8 decoding), modelled on the ASCII
range: every byte string that reaches a decoding point in this pipeline
has already been compared equal to one of a fixed set of ASCII method
words, on which ASCII and UTF-8 decoding agree; on non-ASCII input the
model returns `none` like `as_str` does on invalid UTF-8. -/
def byteStringAsStr (bs : ByteString) : Option String :=
  if bs.all (fun b => b < 128) then some (String.mk (bs.map Char.ofNat)) else none

/-- `hyper::method::Method`. -/
inductive HyperMethod where
  | Options
  | Get
  | Post
  | Head
  | Put
  | Delete
  | Trace
  | Connect
  | Patch
  | Extension (s : String)
deriving DecidableEq, Repr

/-- A resolved URL, at the interface contract used by `request.rs`:
scheme/path/cannot-be-a-base accessors, embedded credentials, and an
opaque origin token compared for equality. -/
structure Url where
  scheme : String
  username : String
  password : Option String
  path : String
  cannot_be_a_base : Bool
  origin : String
deriving DecidableEq, Repr

/-- A default URL value, used only as the `headD` default when reading
the head of a `url_list` (which is never empty after construction). -/
def defaultUrl : Url :=
  { scheme := "", username := "", password := none, path := "",
    cannot_be_a_base := false, origin := "" }

/-- `net_traits::request::RequestMode`. -/
inductive NetTraitsRequestMode where
  | Navigate
  | SameOrigin
  | NoCORS
  | CORSMode
deriving DecidableEq, Repr

/-- `net_traits::request::CredentialsMode`. -/
inductive NetTraitsRequestCredentials where
  | Omit
  | CredentialsSameOrigin
  | Include
deriving DecidableEq, Repr

/-- `net_traits::request::CacheMode`. -/
inductive NetTraitsRequestCache where
  | Default
  | NoStore
  | Reload
  | NoCache
  | ForceCache
  | OnlyIfCached
deriving DecidableEq, Repr

/-- `net_traits::request::RedirectMode`. -/
inductive NetTraitsRequestRedirect where
  | Follow
  | Error
  | Manual
deriving DecidableEq, Repr

/-- `net_traits::request::Referrer`. -/
inductive NetTraitsRequestReferrer where
  | NoReferrer
  | Client
  | ReferrerUrl (u : Url)
deriving DecidableEq, Repr

/-- `msg::constellation_msg::ReferrerPolicy`. -/
inductive MsgReferrerPolicy where
  | NoReferrer
  | NoReferrerWhenDowngrade
  | Origin
  | SameOrigin
  | OriginWhenCrossOrigin
  | UnsafeUrl
deriving DecidableEq, Repr

/-- `net_traits::request::Window`. -/
inductive Window where
  | Client
  | NoWindow
deriving DecidableEq, Repr

/-- `net_traits::request::Origin`. -/
inductive Origin where
  | Client
  | Origin (o : String)
deriving DecidableEq, Repr

/-- Bindings-layer `RequestMode` enum (`mode` member of the init bag). -/
inductive RequestMode where
  | Navigate
  | Same_origin
  | No_cors
  | Cors
deriving DecidableEq, Repr

/-- Bindings-layer `RequestCredentials` enum. -/
inductive RequestCredentials where
  | Omit
  | Same_origin
  | Include
deriving DecidableEq, Repr

/-- Bindings-layer `RequestCache` enum. -/
inductive RequestCache where
  | Default
  | No_store
  | Reload
  | No_cache
  | Force_cache
  | Only_if_cached
deriving DecidableEq, Repr

/-- Bindings-layer `RequestRedirect` enum. -/
inductive RequestRedirect where
  | Follow
  | Error
  | Manual
deriving DecidableEq, Repr

/-- Bindings-layer `ReferrerPolicy` enum. -/
inductive ReferrerPolicy where
  | Empty
  | No_referrer
  | No_referrer_when_downgrade
  | Origin
  | Origin_when_cross_origin
  | Unsafe_url
deriving DecidableEq, Repr

/-- `impl Into<NetTraitsRequestMode> for RequestMode`. -/
def requestModeIntoNet : RequestMode → NetTraitsRequestMode
  | RequestMode.Navigate => NetTraitsRequestMode.Navigate
  | RequestMode.Same_origin => NetTraitsRequestMode.SameOrigin
  | RequestMode.No_cors => NetTraitsRequestMode.NoCORS
  | RequestMode.Cors => NetTraitsRequestMode.CORSMode

/-- `impl Into<NetTraitsRequestCredentials> for RequestCredentials`. -/
def requestCredentialsIntoNet : RequestCredentials → NetTraitsRequestCredentials
  | RequestCredentials.Omit => NetTraitsRequestCredentials.Omit
  | RequestCredentials.Same_origin => NetTraitsRequestCredentials.CredentialsSameOrigin
  | RequestCredentials.Include => NetTraitsRequestCredentials.Include

/-- `impl Into<NetTraitsRequestCache> for RequestCache`. -/
def requestCacheIntoNet : RequestCache → NetTraitsRequestCache
  | RequestCache.Default => NetTraitsRequestCache.Default
  | RequestCache.No_store => NetTraitsRequestCache.NoStore
  | RequestCache.Reload => NetTraitsRequestCache.Reload
  | RequestCache.No_cache => NetTraitsRequestCache.NoCache
  | RequestCache.Force_cache => NetTraitsRequestCache.ForceCache
  | RequestCache.Only_if_cached => NetTraitsRequestCache.OnlyIfCached

/-- `impl Into<NetTraitsRequestRedirect> for RequestRedirect`. -/
def requestRedirectIntoNet : RequestRedirect → NetTraitsRequestRedirect
  | RequestRedirect.Follow => NetTraitsRequestRedirect.Follow
  | RequestRedirect.Error => NetTraitsRequestRedirect.Error
  | RequestRedirect.Manual => NetTraitsRequestRedirect.Manual

/-- `impl Into<MsgReferrerPolicy> for ReferrerPolicy`. -/
def referrerPolicyIntoMsg : ReferrerPolicy → MsgReferrerPolicy
  | ReferrerPolicy.Empty => MsgReferrerPolicy.NoReferrer
  | ReferrerPolicy.No_referrer => MsgReferrerPolicy.NoReferrer
  | ReferrerPolicy.No_referrer_when_downgrade => MsgReferrerPolicy.NoReferrerWhenDowngrade
  | ReferrerPolicy.Origin => MsgReferrerPolicy.Origin
  | ReferrerPolicy.Origin_when_cross_origin => MsgReferrerPolicy.OriginWhenCrossOrigin
  | ReferrerPolicy.Unsafe_url => MsgReferrerPolicy.UnsafeUrl

/-- The error type of the bindings layer (`Error::Type`). -/
inductive Error where
  | Type (s : String)
deriving DecidableEq, Repr

/-- `Fallible<T>` of the bindings layer. -/
abbrev Fallible (α : Type) := Except Error α

/-- The internal `net_traits::request::Request` record, restricted to
the fields `request.rs` reads or writes. -/
structure NetTraitsRequest where
  url_list : List Url
  method : HyperMethod
  headers : List (String × String)
  is_unsafe_request : Bool
  window : Window
  origin : Origin
  omit_origin_header : Bool
  same_origin_data : Bool
  referrer : NetTraitsRequestReferrer
  referrer_policy : Option MsgReferrerPolicy
  mode : NetTraitsRequestMode
  credentials_mode : NetTraitsRequestCredentials
  cache_mode : NetTraitsRequestCache
  redirect_mode : NetTraitsRequestRedirect
  integrity_metadata : String
  body : Option (List Nat)
  is_service_worker_global_scope : Bool
deriving DecidableEq, Repr

/-- `Request::current_url`: the first URL of the redirect chain
(`url_list` is never empty after construction). -/
def NetTraitsRequest.current_url (r : NetTraitsRequest) : Url :=
  r.url_list.headD defaultUrl

/-- Modelled from the spec: `net_traits::request::Request::new` is not
under `src/`; the field defaults follow the data model of the spec
(method GET, empty header list, referrer Client, cache Default,
redirect Follow, empty integrity metadata, no body, no referrer
policy). -/
def NetTraitsRequest.new (url : Url) (origin : Option Origin)
    (is_swgs : Bool) : NetTraitsRequest :=
  { url_list := [url]
    method := HyperMethod.Get
    headers := []
    is_unsafe_request := false
    window := Window.Client
    origin := origin.getD Origin.Client
    omit_origin_header := false
    same_origin_data := false
    referrer := NetTraitsRequestReferrer.Client
    referrer_policy := none
    mode := NetTraitsRequestMode.NoCORS
    credentials_mode := NetTraitsRequestCredentials.Omit
    cache_mode := NetTraitsRequestCache.Default
    redirect_mode := NetTraitsRequestRedirect.Follow
    integrity_metadata := ""
    body := none
    is_service_worker_global_scope := is_swgs }

/-- Header-list guard tags (`dom::headers::Guard`). -/
inductive Guard where
  | NoGuard
  | RequestGuard
  | RequestNoCors
  | ResponseGuard
  | Immutable
deriving DecidableEq, Repr

/-- The DOM `Headers` object at the interface contract used by
`request.rs`: an ordered header list plus a guard tag. -/
structure DomHeaders where
  guard : Guard
  header_list : List (String × String)
deriving DecidableEq, Repr

/-- The construction-time environment: the collaborators `request.rs`
consumes from outside this file. `base_url` is `global.get_url()`;
`join` is `base_url.join(...)` of the URL library (`none` on parse
failure); `guardAllows` is the name-based guard denylist enforced by
the header-list collaborator (`dom/headers.rs`). -/
structure Env where
  base_url : Url
  join : String → Option Url
  guardAllows : Guard → String → Bool

/-- ASCII lowercasing of one character (header names are ASCII). -/
def charToLower (c : Char) : Char :=
  if 65 ≤ c.toNat ∧ c.toNat ≤ 90 then Char.ofNat (c.toNat + 32) else c

/-- ASCII lowercasing of a header name. -/
def strToLower (s : String) : String := String.mk (s.data.map charToLower)

/-- Modelled from the spec: `Headers::Append` of `dom/headers.rs` is not
under `src/`; header names are stored lowercased and appending is
subject to the guard denylist, surfaced as a fallible operation. -/
def headersAppend (env : Env) (guard : Guard)
    (hl : List (String × String)) (name value : String) :
    Fallible (List (String × String)) :=
  let lowered := strToLower name
  if env.guardAllows guard lowered then Except.ok (hl ++ [(lowered, value)])
  else Except.error (Error.Type "Header name is forbidden under the guard")

/-- Modelled from the spec: `Headers::Has` of `dom/headers.rs` is not
under `src/`; case-insensitive presence test on the header list. -/
def headersHas (hl : List (String × String)) (name : String) : Bool :=
  hl.any (fun p => p.1 = strToLower name)

/-- Modelled from the spec: `Headers::fill` of `dom/headers.rs` is not
under `src/`; append every pair of the source in order, each append
subject to the guard, failures propagating. -/
def headersFillList (env : Env) (guard : Guard)
    (acc : List (String × String)) :
    List (String × String) → Fallible (List (String × String))
  | [] => Except.ok acc
  | p :: rest =>
    match headersAppend env guard acc p.1 p.2 with
    | Except.error e => Except.error e
    | Except.ok acc2 => headersFillList env guard acc2 rest

/-- Modelled from the spec: `Headers::extract_mime_type` of
`dom/headers.rs` is not under `src/`; best-effort read of the final
header list's Content-Type value, empty byte sequence when absent. -/
def extract_mime_type (hl : List (String × String)) : List Nat :=
  match hl.find? (fun p => p.1 = "content-type") with
  | some p => asciiBytes p.2
  | none => []

/-- Modelled from the spec: `Headers::for_request` of `dom/headers.rs`
is not under `src/`; a fresh empty header list whose guard is the
request guard. -/
def Headers.for_request : DomHeaders :=
  { guard := Guard.RequestGuard, header_list := [] }

/-- The DOM `Request` object: reflected wrapper around the internal
request, plus the `body_used` flag, the DOM headers and the cached
mime type. -/
structure DomRequest where
  request : NetTraitsRequest
  body_used : Bool
  headers : DomHeaders
  mime_type : List Nat
deriving DecidableEq, Repr

/-- The `RequestInfo` union: a URL string or an existing `Request`. -/
inductive RequestInfo where
  | usvString (s : String)
  | request (r : DomRequest)
deriving DecidableEq, Repr

/-- A JS value restricted to what `init.window` is tested for:
undefined, null, or anything else. -/
inductive JsAny where
  | undefined
  | nullValue
  | otherValue
deriving DecidableEq, Repr

/-- `JSVal::is_undefined`. -/
def JsAny.is_undefined : JsAny → Bool
  | JsAny.undefined => true
  | _ => false

/-- `JSVal::is_null`. -/
def JsAny.is_null : JsAny → Bool
  | JsAny.nullValue => true
  | _ => false

/-- The `HeadersInit` union of the bindings layer: an existing
`Headers` object, a sequence of pairs, or a name-to-value map. -/
inductive HeadersInit where
  | headers (h : DomHeaders)
  | byteStringSequenceSequence (l : List (List ByteString))
  | byteStringMozMap (m : List (String × ByteString))
deriving DecidableEq, Repr

/-- Modelled from the spec: the body-extraction collaborator
(`Extractable::extract` of `dom/xmlhttprequest.rs`) is not under
`src/`; a supplied body value is represented by the byte content and
optional content-type hint that its extraction produces. -/
structure BodyInit where
  bytes : List Nat
  content_type : Option String
deriving DecidableEq, Repr

/-- `Extractable::extract`: byte content plus content-type hint. -/
def BodyInit.extract (b : BodyInit) : List Nat × Option String :=
  (b.bytes, b.content_type)

/-- The `RequestInit` options bag. An `Option` field is `none` when the
dictionary member is absent; `body` is doubly optional because the
member itself is nullable. -/
structure RequestInit where
  body : Option (Option BodyInit) := none
  cache : Option RequestCache := none
  credentials : Option RequestCredentials := none
  integrity : Option String := none
  headers : Option HeadersInit := none
  method : Option ByteString := none
  mode : Option RequestMode := none
  redirect : Option RequestRedirect := none
  referrer : Option String := none
  referrerPolicy : Option ReferrerPolicy := none
  window : JsAny := JsAny.undefined
deriving DecidableEq, Repr

/-- `net_request_from_global` (the `pipeline_id` channel plumbing is
dropped: nothing in the claims observes it). -/
def net_request_from_global (env : Env) (url : Url)
    (is_service_worker_global_scope : Bool) : NetTraitsRequest :=
  let origin := Origin.Origin env.base_url.origin
  NetTraitsRequest.new url (some origin) is_service_worker_global_scope

/-- `normalized_method_to_typed_method`. -/
def normalized_method_to_typed_method (m : String) : HyperMethod :=
  match m with
  | "DELETE" => HyperMethod.Delete
  | "GET" => HyperMethod.Get
  | "HEAD" => HyperMethod.Head
  | "OPTIONS" => HyperMethod.Options
  | "POST" => HyperMethod.Post
  | "PUT" => HyperMethod.Put
  | a => HyperMethod.Extension a

/-- `normalize_method`. -/
def normalize_method (m : String) : String :=
  match m with
  | "delete" => "DELETE"
  | "get" => "GET"
  | "head" => "HEAD"
  | "options" => "OPTIONS"
  | "post" => "POST"
  | "put" => "PUT"
  | a => a

/-- `is_method`: the source compares `m.to_lower().as_str()` against
fixed ASCII words with a catch-all `false`; since each word's UTF-8
encoding is unique and decoding inverts encoding, this is byte-level
comparison of the lowercased bytes against those words. -/
def is_method (m : ByteString) : Bool :=
  decide (byteStringToLower m = asciiBytes "get") ||
  decide (byteStringToLower m = asciiBytes "head") ||
  decide (byteStringToLower m = asciiBytes "post") ||
  decide (byteStringToLower m = asciiBytes "put") ||
  decide (byteStringToLower m = asciiBytes "delete") ||
  decide (byteStringToLower m = asciiBytes "connect") ||
  decide (byteStringToLower m = asciiBytes "options") ||
  decide (byteStringToLower m = asciiBytes "trace")

/-- `is_forbidden_method`, by the same byte-level reading as
`is_method`. -/
def is_forbidden_method (m : ByteString) : Bool :=
  decide (byteStringToLower m = asciiBytes "connect") ||
  decide (byteStringToLower m = asciiBytes "trace") ||
  decide (byteStringToLower m = asciiBytes "track")

/-- `is_cors_safelisted_method`. -/
def is_cors_safelisted_method (m : HyperMethod) : Bool :=
  decide (m = HyperMethod.Get) || decide (m = HyperMethod.Head) ||
  decide (m = HyperMethod.Post)

/-- `includes_credentials`. -/
def includes_credentials (input : Url) : Bool :=
  !input.username.isEmpty || input.password.isSome

/-- `request_is_disturbed`: permanently stubbed to `false` in the
source (streaming bodies unimplemented). -/
def request_is_disturbed (_input : DomRequest) : Bool := false

/-- `request_is_locked`: permanently stubbed to `false` in the
source. -/
def request_is_locked (_input : DomRequest) : Bool := false

/-- Steps 1 to 6 of the constructor: resolve the input into a temporary
request plus the fallback mode and fallback credentials. -/
def inputResolution (env : Env) (input : RequestInfo) :
    Fallible (NetTraitsRequest × Option NetTraitsRequestMode ×
              Option NetTraitsRequestCredentials) :=
  match input with
  | RequestInfo.usvString usv_string =>
    -- Steps 5.1 to 5.3
    match env.join usv_string with
    | none => Except.error (Error.Type "Url could not be parsed")
    | some url =>
      if includes_credentials url then
        Except.error (Error.Type "Url includes credentials")
      else
        -- Steps 5.4 to 5.6
        Except.ok (net_request_from_global env url false,
                   some NetTraitsRequestMode.CORSMode,
                   some NetTraitsRequestCredentials.Omit)
  | RequestInfo.request input_request =>
    -- Step 6.1
    if request_is_disturbed input_request || request_is_locked input_request then
      Except.error (Error.Type "Input is disturbed or locked")
    else
      -- Step 6.2
      Except.ok (input_request.request, none, none)

/-- Steps 8, 10 and 11: the window option must be absent or null. -/
def windowResolution (window_init : JsAny) : Fallible Window :=
  if !window_init.is_undefined && !window_init.is_null then
    Except.error (Error.Type "Window is present and is not null")
  else if !window_init.is_undefined then
    Except.ok Window.NoWindow
  else
    Except.ok Window.Client

/-- Step 12: synthesize the real request from the temporary basis. -/
def baseRequest (env : Env) (window : Window)
    (temporary_request : NetTraitsRequest) : NetTraitsRequest :=
  let request := net_request_from_global env temporary_request.current_url false
  { request with
    method := temporary_request.method
    headers := temporary_request.headers
    is_unsafe_request := true
    window := window
    origin := Origin.Client
    omit_origin_header := temporary_request.omit_origin_header
    same_origin_data := true
    referrer := temporary_request.referrer
    referrer_policy := temporary_request.referrer_policy
    mode := temporary_request.mode
    credentials_mode := temporary_request.credentials_mode
    cache_mode := temporary_request.cache_mode
    redirect_mode := temporary_request.redirect_mode
    integrity_metadata := temporary_request.integrity_metadata }

/-- The step 13 guard: is any member of the options bag present? -/
def initIsPresent (init : RequestInit) : Bool :=
  init.body.isSome || init.cache.isSome || init.credentials.isSome ||
  init.integrity.isSome || init.headers.isSome || init.method.isSome ||
  init.mode.isSome || init.redirect.isSome || init.referrer.isSome ||
  init.referrerPolicy.isSome || !init.window.is_undefined

/-- Step 13: with any option present, reject a navigate-mode basis and
reset origin-header omission, referrer and referrer policy. -/
def initResetStep (init : RequestInit) (request : NetTraitsRequest) :
    Fallible NetTraitsRequest :=
  if initIsPresent init then
    -- Step 13.1
    if request.mode = NetTraitsRequestMode.Navigate then
      Except.error (Error.Type "Init is present and request mode is navigate")
    else
      -- Steps 13.2 to 13.4
      Except.ok { request with
        omit_origin_header := false
        referrer := NetTraitsRequestReferrer.Client
        referrer_policy := none }
  else
    Except.ok request

/-- Step 14: resolve the referrer option. -/
def referrerStep (env : Env) (origin : String) (init_referrer : Option String)
    (request : NetTraitsRequest) : Fallible NetTraitsRequest :=
  match init_referrer with
  | none => Except.ok request
  | some referrer =>
    -- Step 14.2
    if referrer.isEmpty then
      Except.ok { request with referrer := NetTraitsRequestReferrer.NoReferrer }
    else
      -- Steps 14.3 and 14.4
      match env.join referrer with
      | none => Except.error (Error.Type "Failed to parse referrer url")
      | some parsed_referrer =>
        -- Step 14.5
        if parsed_referrer.cannot_be_a_base = true ∧
            parsed_referrer.scheme = "about" ∧ parsed_referrer.path = "client" then
          Except.ok { request with referrer := NetTraitsRequestReferrer.Client }
        -- Step 14.6
        else if parsed_referrer.origin ≠ origin then
          Except.error (Error.Type "RequestInit referrer has invalid origin")
        else
          -- Step 14.7
          Except.ok { request with
            referrer := NetTraitsRequestReferrer.ReferrerUrl parsed_referrer }

/-- Step 15: overwrite the referrer policy when supplied. -/
def referrerPolicyStep (init_referrerpolicy : Option ReferrerPolicy)
    (request : NetTraitsRequest) : NetTraitsRequest :=
  match init_referrerpolicy with
  | some p => { request with referrer_policy := some (referrerPolicyIntoMsg p) }
  | none => request

/-- Steps 16 to 18: mode override with fallback, rejecting Navigate. -/
def modeStep (init_mode : Option RequestMode)
    (fallback_mode : Option NetTraitsRequestMode)
    (request : NetTraitsRequest) : Fallible NetTraitsRequest :=
  -- Step 16
  let mode : Option NetTraitsRequestMode :=
    match init_mode with
    | some m => some (requestModeIntoNet m)
    | none => fallback_mode
  -- Step 17
  if mode = some NetTraitsRequestMode.Navigate then
    Except.error (Error.Type "Request mode is Navigate")
  else
    -- Step 18
    match mode with
    | some m => Except.ok { request with mode := m }
    | none => Except.ok request

/-- Steps 19 and 20: credentials override with fallback. -/
def credentialsStep (init_credentials : Option RequestCredentials)
    (fallback_credentials : Option NetTraitsRequestCredentials)
    (request : NetTraitsRequest) : NetTraitsRequest :=
  let credentials : Option NetTraitsRequestCredentials :=
    match init_credentials with
    | some c => some (requestCredentialsIntoNet c)
    | none => fallback_credentials
  match credentials with
  | some c => { request with credentials_mode := c }
  | none => request

/-- Steps 21 and 22: cache override, then the only-if-cached
invariant. -/
def cacheStep (init_cache : Option RequestCache)
    (request : NetTraitsRequest) : Fallible NetTraitsRequest :=
  -- Step 21
  let request :=
    match init_cache with
    | some c => { request with cache_mode := requestCacheIntoNet c }
    | none => request
  -- Step 22
  if request.cache_mode = NetTraitsRequestCache.OnlyIfCached ∧
      request.mode ≠ NetTraitsRequestMode.SameOrigin then
    Except.error (Error.Type "Cache is only-if-cached and mode is not same-origin")
  else
    Except.ok request

/-- Step 23: redirect override. -/
def redirectStep (init_redirect : Option RequestRedirect)
    (request : NetTraitsRequest) : NetTraitsRequest :=
  match init_redirect with
  | some rd => { request with redirect_mode := requestRedirectIntoNet rd }
  | none => request

/-- Step 24: integrity override. -/
def integrityStep (init_integrity : Option String)
    (request : NetTraitsRequest) : NetTraitsRequest :=
  match init_integrity with
  | some i => { request with integrity_metadata := i }
  | none => request

/-- Step 25: method validation and normalization. -/
def methodStep (init_method : Option ByteString)
    (request : NetTraitsRequest) : Fallible NetTraitsRequest :=
  match init_method with
  | none => Except.ok request
  | some m =>
    -- Step 25.1
    if !is_method m then
      Except.error (Error.Type "Method is not a method")
    else if is_forbidden_method m then
      Except.error (Error.Type "Method is forbidden")
    else
      -- Step 25.2
      match byteStringAsStr (byteStringToLower m) with
      | none => Except.error (Error.Type "Method is not a valid UTF8")
      | some method_string =>
        -- Step 25.3
        Except.ok { request with
          method := normalized_method_to_typed_method (normalize_method method_string) }

/-- Steps 27 and 28: the effective header source. The override replaces
the source only in the `Headers` shape of `HeadersInit`; the sequence
and map shapes fall through the inner `if let` of step 28 unchanged.
When `headers_copy` still aliases the freshly created empty headers of
the result object, step 29 empties that same object before the fill, so
the source it denotes is the empty list. -/
def effectiveHeaderSource (input : RequestInfo)
    (init_headers : Option HeadersInit) : List (String × String) :=
  -- Step 27
  let headers_copy : List (String × String) :=
    match input with
    | RequestInfo.request input_request => input_request.headers.header_list
    | RequestInfo.usvString _ => Headers.for_request.header_list
  -- Step 28
  match init_headers with
  | some (HeadersInit.headers init_headers_obj) => init_headers_obj.header_list
  | _ => headers_copy

/-- Steps 26 to 31: clear the result's header list, apply the no-cors
checks and guard, and fill from the effective source. -/
def headersStep (env : Env) (input : RequestInfo) (init : RequestInit)
    (request : NetTraitsRequest) : Fallible DomHeaders :=
  let source := effectiveHeaderSource input init.headers
  -- Step 30
  let guardRes : Fallible Guard :=
    if request.mode = NetTraitsRequestMode.NoCORS then
      -- Step 30.1
      if !is_cors_safelisted_method request.method then
        Except.error (Error.Type
          "The mode is no-cors but the method is not a cors-safelisted method")
      -- Step 30.2
      else if request.integrity_metadata ≠ "" then
        Except.error (Error.Type "Integrity metadata is not an empty string")
      -- Step 30.3
      else Except.ok Guard.RequestNoCors
    else Except.ok Headers.for_request.guard
  match guardRes with
  | Except.error e => Except.error e
  | Except.ok guard =>
    -- Steps 29 and 31: the list was emptied, then filled from the source
    match headersFillList env guard [] source with
    | Except.error e => Except.error e
    | Except.ok filled => Except.ok { guard := guard, header_list := filled }

/-- Step 32: the inherited body of a request-like input. -/
def inheritedBody (input : RequestInfo) : Option (List Nat) :=
  match input with
  | RequestInfo.request input_request => input_request.request.body
  | RequestInfo.usvString _ => none

/-- Step 33: the GET/HEAD body check, gated (as in the source) on the
body member being present in the options bag. -/
def bodyMethodCheck (init_body : Option (Option BodyInit))
    (input_body : Option (List Nat)) (method : HyperMethod) : Fallible Unit :=
  match init_body with
  | some init_body_option =>
    if init_body_option.isSome || input_body.isSome then
      match method with
      | HyperMethod.Get =>
        Except.error (Error.Type "Init body is non-null, and request method is GET")
      | HyperMethod.Head =>
        Except.error (Error.Type "Init body is non-null, and request method is HEAD")
      | _ => Except.ok ()
    else Except.ok ()
  | none => Except.ok ()

/-- Step 34: extract a concretely supplied body and append the
content-type hint when no Content-Type header exists yet. -/
def bodyExtractionStep (env : Env) (init_body : Option (Option BodyInit))
    (input_body : Option (List Nat)) (headers : DomHeaders) :
    Fallible (Option (List Nat) × DomHeaders) :=
  match init_body with
  | some (some init_body_value) =>
    -- Step 34.2
    let extracted := init_body_value.extract
    let input_body := some extracted.1
    -- Step 34.3
    match extracted.2 with
    | some contents =>
      if !headersHas headers.header_list "Content-Type" then
        match headersAppend env headers.guard headers.header_list
            "Content-Type" contents with
        | Except.error e => Except.error e
        | Except.ok hl => Except.ok (input_body, { headers with header_list := hl })
      else Except.ok (input_body, headers)
    | none => Except.ok (input_body, headers)
  | _ => Except.ok (input_body, headers)

/-- `Request::Constructor` (steps 1 to 38), sequencing the stage
functions above exactly in source order. -/
def Request.Constructor (env : Env) (input : RequestInfo)
    (init : RequestInit) : Fallible DomRequest :=
  match inputResolution env input with
  | Except.error e => Except.error e
  | Except.ok (temporary_request, fallback_mode, fallback_credentials) =>
    -- Step 7
    let origin := env.base_url.origin
    match windowResolution init.window with
    | Except.error e => Except.error e
    | Except.ok window =>
      let request := baseRequest env window temporary_request
      match initResetStep init request with
      | Except.error e => Except.error e
      | Except.ok request =>
        match referrerStep env origin init.referrer request with
        | Except.error e => Except.error e
        | Except.ok request =>
          let request := referrerPolicyStep init.referrerPolicy request
          match modeStep init.mode fallback_mode request with
          | Except.error e => Except.error e
          | Except.ok request =>
            let request := credentialsStep init.credentials fallback_credentials request
            match cacheStep init.cache request with
            | Except.error e => Except.error e
            | Except.ok request =>
              let request := redirectStep init.redirect request
              let request := integrityStep init.integrity request
              match methodStep init.method request with
              | Except.error e => Except.error e
              | Except.ok request =>
                match headersStep env input init request with
                | Except.error e => Except.error e
                | Except.ok headers =>
                  let input_body := inheritedBody input
                  match bodyMethodCheck init.body input_body request.method with
                  | Except.error e => Except.error e
                  | Except.ok _ =>
                    match bodyExtractionStep env init.body input_body headers with
                    | Except.error e => Except.error e
                    | Except.ok (input_body, headers) =>
                      -- Steps 35, 36 and 38
                      Except.ok {
                        request := { request with body := input_body }
                        body_used := false
                        headers := headers
                        mime_type := extract_mime_type headers.header_list }

/-- `Request::BodyUsed`. -/
def Request.BodyUsed (r : DomRequest) : Bool := r.body_used

/-- `BodyOperations::take_body`: swap the stored body out for `none`;
when a body was present, flip `body_used` and deliver it. Returns the
delivered body and the request state after the call. -/
def Request.take_body (r : DomRequest) : Option (List Nat) × DomRequest :=
  match r.request.body with
  | some b =>
    (some b, { r with request := { r.request with body := none }, body_used := true })
  | none => (none, { r with request := { r.request with body := none } })

/-- Read the request out of a successful construction; a fixed sentinel
for the error case. -/
def okRequest (e : Fallible DomRequest) : DomRequest :=
  match e with
  | Except.ok r => r
  | Except.error _ =>
    { request := NetTraitsRequest.new defaultUrl none false
      body_used := true
      headers := Headers.for_request
      mime_type := [] }

/-- Did a fallible computation end in the validation-error kind
(`Error::Type`)? -/
def isTypeError {α : Type} (e : Fallible α) : Bool :=
  match e with
  | Except.error (Error.Type _) => true
  | Except.ok _ => false

def sampleBase : Url :=
  { scheme := "http", username := "", password := none, path := "/",
    cannot_be_a_base := false, origin := "http://example.com" }

def sampleUrl : Url :=
  { scheme := "http", username := "", password := none, path := "/a",
    cannot_be_a_base := false, origin := "http://example.com" }

def credUrl : Url :=
  { scheme := "http", username := "user", password := none, path := "/a",
    cannot_be_a_base := false, origin := "http://example.com" }

def aboutClientUrl : Url :=
  { scheme := "about", username := "", password := none, path := "client",
    cannot_be_a_base := true, origin := "about:blank-origin" }

def crossUrl : Url :=
  { scheme := "http", username := "", password := none, path := "/x",
    cannot_be_a_base := false, origin := "http://evil.example" }

/-- A concrete environment for the ground instances: a base URL on the
origin of `sampleBase`, a join table over the URL strings the instances
use, and a guard that allows every header name. -/
def sampleEnv : Env :=
  { base_url := sampleBase
    join := fun s =>
      if s = "http://example.com/a" then some sampleUrl
      else if s = "http://user@example.com/a" then some credUrl
      else if s = "about:client" then some aboutClientUrl
      else if s = "http://evil.example/x" then some crossUrl
      else if s = "/same" then some sampleUrl
      else none
    guardAllows := fun _ _ => true }

/-- A plain CORS-mode internal request over `sampleUrl`. -/
def sampleNetRequest : NetTraitsRequest :=
  { NetTraitsRequest.new sampleUrl (some (Origin.Origin "http://example.com")) false with
    mode := NetTraitsRequestMode.CORSMode }

/-- A request-like input whose method is GET and whose body is present. -/
def getBodyInput : DomRequest :=
  { request := { sampleNetRequest with body := some [1, 2, 3] }
    body_used := false
    headers := Headers.for_request
    mime_type := [] }

/-- A request-like input carrying one header. -/
def headersInput : DomRequest :=
  { request := sampleNetRequest
    body_used := false
    headers := { guard := Guard.RequestGuard, header_list := [("x-input", "1")] }
    mime_type := [] }

theorem constructor_ok_decomp (env : Env) (input : RequestInfo) (init : RequestInit)
    (r : DomRequest) (h : Request.Constructor env input init = Except.ok r) :
    ∃ temp fm fc window reqA reqB reqD reqF reqH hdrs ibody2 hdrs2,
      inputResolution env input = Except.ok (temp, fm, fc) ∧
      windowResolution init.window = Except.ok window ∧
      initResetStep init (baseRequest env window temp) = Except.ok reqA ∧
      referrerStep env env.base_url.origin init.referrer reqA = Except.ok reqB ∧
      modeStep init.mode fm (referrerPolicyStep init.referrerPolicy reqB) = Except.ok reqD ∧
      cacheStep init.cache (credentialsStep init.credentials fc reqD) = Except.ok reqF ∧
      methodStep init.method (integrityStep init.integrity (redirectStep init.redirect reqF)) = Except.ok reqH ∧
      headersStep env input init reqH = Except.ok hdrs ∧
      bodyMethodCheck init.body (inheritedBody input) reqH.method = Except.ok () ∧
      bodyExtractionStep env init.body (inheritedBody input) hdrs = Except.ok (ibody2, hdrs2) ∧
      r = { request := { reqH with body := ibody2 },
            body_used := false,
            headers := hdrs2,
            mime_type := extract_mime_type hdrs2.header_list } := by
  unfold Request.Constructor at h
  split at h
  · cases h
  rename_i temp fm fc heq1
  split at h
  · cases h
  rename_i window heq2
  dsimp only at h
  split at h
  · cases h
  rename_i reqA heq3
  split at h
  · cases h
  rename_i reqB heq4
  split at h
  · cases h
  rename_i reqD heq5
  split at h
  · cases h
  rename_i reqF heq6
  split at h
  · cases h
  rename_i reqH heq7
  split at h
  · cases h
  rename_i hdrs heq8
  split at h
  · cases h
  rename_i u heq9
  split at h
  · cases h
  rename_i ibody2 hdrs2 heq10
  cases h
  exact ⟨temp, fm, fc, window, reqA, reqB, reqD, reqF, reqH, hdrs, ibody2, hdrs2,
    heq1, heq2, heq3, heq4, heq5, heq6, heq7, heq8, by cases u; exact heq9, heq10, rfl⟩

theorem referrerPolicyStep_fields (p : Option ReferrerPolicy) (req : NetTraitsRequest) :
    (referrerPolicyStep p req).referrer = req.referrer ∧
    (referrerPolicyStep p req).mode = req.mode ∧
    (referrerPolicyStep p req).cache_mode = req.cache_mode ∧
    (referrerPolicyStep p req).credentials_mode = req.credentials_mode ∧
    (referrerPolicyStep p req).method = req.method := by
  cases p <;> simp [referrerPolicyStep]

theorem credentialsStep_fields (c : Option RequestCredentials)
    (fc : Option NetTraitsRequestCredentials) (req : NetTraitsRequest) :
    (credentialsStep c fc req).referrer = req.referrer ∧
    (credentialsStep c fc req).mode = req.mode ∧
    (credentialsStep c fc req).cache_mode = req.cache_mode ∧
    (credentialsStep c fc req).method = req.method := by
  cases c <;> cases fc <;> simp [credentialsStep]

theorem redirectStep_fields (rd : Option RequestRedirect) (req : NetTraitsRequest) :
    (redirectStep rd req).referrer = req.referrer ∧
    (redirectStep rd req).mode = req.mode ∧
    (redirectStep rd req).cache_mode = req.cache_mode ∧
    (redirectStep rd req).credentials_mode = req.credentials_mode ∧
    (redirectStep rd req).method = req.method := by
  cases rd <;> simp [redirectStep]

theorem integrityStep_fields (i : Option String) (req : NetTraitsRequest) :
    (integrityStep i req).referrer = req.referrer ∧
    (integrityStep i req).mode = req.mode ∧
    (integrityStep i req).cache_mode = req.cache_mode ∧
    (integrityStep i req).credentials_mode = req.credentials_mode ∧
    (integrityStep i req).method = req.method := by
  cases i <;> simp [integrityStep]

theorem modeStep_ok_fields (im : Option RequestMode) (fm : Option NetTraitsRequestMode)
    (req req2 : NetTraitsRequest) (h : modeStep im fm req = Except.ok req2) :
    req2.referrer = req.referrer ∧ req2.cache_mode = req.cache_mode ∧
    req2.credentials_mode = req.credentials_mode ∧ req2.method = req.method := by
  unfold modeStep at h
  dsimp only at h
  split at h
  · cases h
  · split at h <;> (injection h with h2; subst h2; simp)

theorem cacheStep_ok_fields (ic : Option RequestCache) (req req2 : NetTraitsRequest)
    (h : cacheStep ic req = Except.ok req2) :
    req2.referrer = req.referrer ∧ req2.mode = req.mode ∧
    req2.credentials_mode = req.credentials_mode ∧ req2.method = req.method := by
  unfold cacheStep at h
  dsimp only at h
  split at h
  · cases h
  · injection h with h2
    subst h2
    cases ic <;> simp

theorem cacheStep_ok_invariant (ic : Option RequestCache) (req req2 : NetTraitsRequest)
    (h : cacheStep ic req = Except.ok req2) :
    req2.cache_mode = NetTraitsRequestCache.OnlyIfCached →
    req2.mode = NetTraitsRequestMode.SameOrigin := by
  intro hc
  unfold cacheStep at h
  dsimp only at h
  split at h
  · cases h
  · rename_i hcond
    injection h with h2
    subst h2
    by_contra hne
    exact hcond ⟨hc, hne⟩

theorem methodStep_ok_fields (im : Option ByteString) (req req2 : NetTraitsRequest)
    (h : methodStep im req = Except.ok req2) :
    req2.referrer = req.referrer ∧ req2.mode = req.mode ∧
    req2.cache_mode = req.cache_mode ∧ req2.credentials_mode = req.credentials_mode := by
  unfold methodStep at h
  split at h
  · injection h with h2; subst h2; simp
  · split at h
    · cases h
    · split at h
      · cases h
      · split at h
        · cases h
        · injection h with h2; subst h2; simp

theorem methodStep_some_ok (m : ByteString) (req req2 : NetTraitsRequest)
    (h : methodStep (some m) req = Except.ok req2) :
    is_method m = true ∧ is_forbidden_method m = false ∧
    ∃ s, byteStringAsStr (byteStringToLower m) = some s ∧
      req2.method = normalized_method_to_typed_method (normalize_method s) := by
  simp only [methodStep] at h
  cases hm : is_method m with
  | false => rw [hm] at h; simp at h
  | true =>
    rw [hm] at h
    simp only [Bool.not_true, Bool.false_eq_true, if_false] at h
    cases hf : is_forbidden_method m with
    | true => rw [hf] at h; simp at h
    | false =>
      rw [hf] at h
      simp only [Bool.false_eq_true, if_false] at h
      cases hs : byteStringAsStr (byteStringToLower m) with
      | none => rw [hs] at h; simp at h
      | some s =>
        rw [hs] at h
        injection h with h2
        subst h2
        exact ⟨rfl, rfl, s, rfl, by simp⟩

theorem referrer_preserved_15_25 (init : RequestInit) (fm : Option NetTraitsRequestMode)
    (fc : Option NetTraitsRequestCredentials) (reqB reqD reqF reqH : NetTraitsRequest)
    (h5 : modeStep init.mode fm (referrerPolicyStep init.referrerPolicy reqB) = Except.ok reqD)
    (h6 : cacheStep init.cache (credentialsStep init.credentials fc reqD) = Except.ok reqF)
    (h7 : methodStep init.method (integrityStep init.integrity (redirectStep init.redirect reqF)) = Except.ok reqH) :
    reqH.referrer = reqB.referrer := by
  have p1 := (referrerPolicyStep_fields init.referrerPolicy reqB).1
  have p2 := (modeStep_ok_fields _ _ _ _ h5).1
  have p3 := (credentialsStep_fields init.credentials fc reqD).1
  have p4 := (cacheStep_ok_fields _ _ _ h6).1
  have p5 := (redirectStep_fields init.redirect reqF).1
  have p6 := (integrityStep_fields init.integrity (redirectStep init.redirect reqF)).1
  have p7 := (methodStep_ok_fields _ _ _ h7).1
  rw [p7, p6, p5, p4, p3, p2, p1]

theorem modecache_preserved_23_25 (init : RequestInit) (reqF reqH : NetTraitsRequest)
    (h7 : methodStep init.method (integrityStep init.integrity (redirectStep init.redirect reqF)) = Except.ok reqH) :
    reqH.cache_mode = reqF.cache_mode ∧ reqH.mode = reqF.mode := by
  have p5 := redirectStep_fields init.redirect reqF
  have p6 := integrityStep_fields init.integrity (redirectStep init.redirect reqF)
  have p7 := methodStep_ok_fields _ _ _ h7
  constructor
  · rw [p7.2.2.1, p6.2.2.1, p5.2.2.1]
  · rw [p7.2.1, p6.2.1, p5.2.1]

theorem referrerStep_empty (env : Env) (origin : String) (s : String)
    (req : NetTraitsRequest) (hs : s.isEmpty = true) :
    referrerStep env origin (some s) req =
      Except.ok { req with referrer := NetTraitsRequestReferrer.NoReferrer } := by
  simp [referrerStep, hs]

theorem referrerStep_parse_fail (env : Env) (origin : String) (s : String)
    (req : NetTraitsRequest) (hs : s.isEmpty = false) (hj : env.join s = none) :
    referrerStep env origin (some s) req =
      Except.error (Error.Type "Failed to parse referrer url") := by
  simp [referrerStep, hs, hj]

theorem referrerStep_about_client (env : Env) (origin : String) (s : String)
    (u : Url) (req : NetTraitsRequest) (hs : s.isEmpty = false)
    (hj : env.join s = some u) (hcb : u.cannot_be_a_base = true)
    (hsch : u.scheme = "about") (hp : u.path = "client") :
    referrerStep env origin (some s) req =
      Except.ok { req with referrer := NetTraitsRequestReferrer.Client } := by
  simp [referrerStep, hs, hj, hcb, hsch, hp]

theorem referrerStep_cross_origin (env : Env) (origin : String) (s : String)
    (u : Url) (req : NetTraitsRequest) (hs : s.isEmpty = false)
    (hj : env.join s = some u)
    (hnc : ¬(u.cannot_be_a_base = true ∧ u.scheme = "about" ∧ u.path = "client"))
    (ho : u.origin ≠ origin) :
    referrerStep env origin (some s) req =
      Except.error (Error.Type "RequestInit referrer has invalid origin") := by
  simp only [referrerStep]
  rw [hs]
  simp only [Bool.false_eq_true, if_false, hj]
  rw [if_neg hnc, if_pos ho]

theorem referrerStep_same_origin (env : Env) (origin : String) (s : String)
    (u : Url) (req : NetTraitsRequest) (hs : s.isEmpty = false)
    (hj : env.join s = some u)
    (hnc : ¬(u.cannot_be_a_base = true ∧ u.scheme = "about" ∧ u.path = "client"))
    (ho : u.origin = origin) :
    referrerStep env origin (some s) req =
      Except.ok { req with referrer := NetTraitsRequestReferrer.ReferrerUrl u } := by
  simp only [referrerStep]
  rw [hs]
  simp only [Bool.false_eq_true, if_false, hj]
  rw [if_neg hnc, if_neg (fun hne => hne ho)]

theorem isTypeError_of_error {α : Type} (e : Error) :
    isTypeError (Except.error e : Fallible α) = true := by
  cases e
  rfl

/-- The full result of constructing from a parseable credential-free
URL string with an empty options bag. -/
theorem constructor_empty_init (env : Env) (s : String) (url : Url)
    (hj : env.join s = some url) (hc : includes_credentials url = false) :
    Request.Constructor env (RequestInfo.usvString s) {} =
      Except.ok
        { request := { NetTraitsRequest.new url (some (Origin.Origin env.base_url.origin)) false with
            is_unsafe_request := true
            origin := Origin.Client
            same_origin_data := true
            mode := NetTraitsRequestMode.CORSMode }
          body_used := false
          headers := { guard := Guard.RequestGuard, header_list := [] }
          mime_type := [] } := by
  have h1 : inputResolution env (RequestInfo.usvString s) =
      Except.ok (net_request_from_global env url false,
                 some NetTraitsRequestMode.CORSMode,
                 some NetTraitsRequestCredentials.Omit) := by
    simp only [inputResolution]
    rw [hj]
    simp [hc]
  unfold Request.Constructor
  rw [h1]
  simp [windowResolution, baseRequest, net_request_from_global, NetTraitsRequest.new,
    NetTraitsRequest.current_url, initResetStep, initIsPresent, referrerStep,
    referrerPolicyStep, modeStep, credentialsStep, cacheStep, redirectStep,
    integrityStep, methodStep, headersStep, effectiveHeaderSource, Headers.for_request,
    headersFillList, inheritedBody, bodyMethodCheck, bodyExtractionStep,
    extract_mime_type, JsAny.is_undefined, JsAny.is_null]

/-- Claim C1: a successful construction never leaves cache mode
only-if-cached with a mode other than same-origin (the step 22 check);
concretely, cache only-if-cached with mode cors is a validation error
while mode same-origin succeeds. -/
theorem claim_C1 :
    (∀ env input init r, Request.Constructor env input init = Except.ok r →
       r.request.cache_mode = NetTraitsRequestCache.OnlyIfCached →
       r.request.mode = NetTraitsRequestMode.SameOrigin) ∧
    isTypeError (Request.Constructor sampleEnv
      (RequestInfo.usvString "http://example.com/a")
      { cache := some RequestCache.Only_if_cached,
        mode := some RequestMode.Cors }) = true ∧
    (Request.Constructor sampleEnv (RequestInfo.usvString "http://example.com/a")
      { cache := some RequestCache.Only_if_cached,
        mode := some RequestMode.Same_origin }).isOk = true := by
  refine ⟨?_, rfl, rfl⟩
  intro env input init r h hc
  obtain ⟨temp, fm, fc, window, reqA, reqB, reqD, reqF, reqH, hdrs, ibody2, hdrs2,
    h1, h2, h3, h4, h5, h6, h7, h8, h9, h10, hr⟩ :=
    constructor_ok_decomp env input init r h
  have hpres := modecache_preserved_23_25 init reqF reqH h7
  have hrc : r.request.cache_mode = reqH.cache_mode := by rw [hr]
  have hrm : r.request.mode = reqH.mode := by rw [hr]
  rw [hrm, hpres.2]
  exact cacheStep_ok_invariant _ _ _ h6 (by rw [← hpres.1, ← hrc]; exact hc)

/-- Witness for claim C1: the invariant read off the concrete
same-origin construction. -/
theorem claim_C1_witness :
    (okRequest (Request.Constructor sampleEnv (RequestInfo.usvString "http://example.com/a")
      { cache := some RequestCache.Only_if_cached,
        mode := some RequestMode.Same_origin })).request.mode =
      NetTraitsRequestMode.SameOrigin :=
  claim_C1.1 sampleEnv (RequestInfo.usvString "http://example.com/a")
    { cache := some RequestCache.Only_if_cached, mode := some RequestMode.Same_origin }
    (okRequest (Request.Constructor sampleEnv (RequestInfo.usvString "http://example.com/a")
      { cache := some RequestCache.Only_if_cached, mode := some RequestMode.Same_origin }))
    rfl rfl

/-- Claim C2 (divergence record): with no body member in the options
bag, an inherited body on a GET request-like input is accepted by the
code (step 33 is gated on the body member being present), contradicting
the claim; the two explicit instances of the claim hold: a supplied
body with method GET is rejected, with method POST accepted. -/
theorem claim_C2 :
    ((Request.Constructor sampleEnv (RequestInfo.request getBodyInput) {}).isOk = true ∧
     (okRequest (Request.Constructor sampleEnv (RequestInfo.request getBodyInput) {})).request.method =
       HyperMethod.Get ∧
     (okRequest (Request.Constructor sampleEnv (RequestInfo.request getBodyInput) {})).request.body =
       some [1, 2, 3]) ∧
    isTypeError (Request.Constructor sampleEnv
      (RequestInfo.usvString "http://example.com/a")
      { method := some (asciiBytes "GET"),
        body := some (some { bytes := [5], content_type := none }) }) = true ∧
    (Request.Constructor sampleEnv (RequestInfo.usvString "http://example.com/a")
      { method := some (asciiBytes "POST"),
        body := some (some { bytes := [5], content_type := none }) }).isOk = true := by
  exact ⟨⟨rfl, rfl, rfl⟩, rfl, rfl⟩

/-- Claim C3: every method override token accepted by a successful
construction lowercases to one of the six known words and is stored as
the corresponding canonical uppercase typed method (so there is no
accepted extension token, making the as-is clause vacuous), and
normalization is the identity on the already-canonical methods. -/
theorem claim_C3 :
    (∀ env input init m r, init.method = some m →
       Request.Constructor env input init = Except.ok r →
       ((byteStringToLower m = asciiBytes "get" ∧ r.request.method = HyperMethod.Get) ∨
        (byteStringToLower m = asciiBytes "head" ∧ r.request.method = HyperMethod.Head) ∨
        (byteStringToLower m = asciiBytes "post" ∧ r.request.method = HyperMethod.Post) ∨
        (byteStringToLower m = asciiBytes "put" ∧ r.request.method = HyperMethod.Put) ∨
        (byteStringToLower m = asciiBytes "delete" ∧ r.request.method = HyperMethod.Delete) ∨
        (byteStringToLower m = asciiBytes "options" ∧ r.request.method = HyperMethod.Options))) ∧
    (normalize_method "GET" = "GET" ∧ normalize_method "HEAD" = "HEAD" ∧
     normalize_method "POST" = "POST" ∧ normalize_method "PUT" = "PUT" ∧
     normalize_method "DELETE" = "DELETE" ∧ normalize_method "OPTIONS" = "OPTIONS") := by
  constructor
  · intro env input init m r hm h
    obtain ⟨temp, fm, fc, window, reqA, reqB, reqD, reqF, reqH, hdrs, ibody2, hdrs2,
      h1, h2, h3, h4, h5, h6, h7, h8, h9, h10, hr⟩ :=
      constructor_ok_decomp env input init r h
    rw [hm] at h7
    obtain ⟨hmeth, hforb, s, hs, hreq⟩ := methodStep_some_ok _ _ _ h7
    have hrm : r.request.method = reqH.method := by rw [hr]
    rw [is_method] at hmeth
    simp only [Bool.or_eq_true] at hmeth
    rw [is_forbidden_method] at hforb
    simp only [Bool.or_eq_false_iff] at hforb
    rcases hmeth with ((((((hl | hl) | hl) | hl) | hl) | hl) | hl) | hl
    <;> replace hl := of_decide_eq_true hl
    · refine Or.inl ⟨hl, ?_⟩
      rw [hl] at hs
      rw [show byteStringAsStr (asciiBytes "get") = some "get" from by decide] at hs
      injection hs with hs2
      subst hs2
      rw [hrm, hreq]
      decide
    · refine Or.inr (Or.inl ⟨hl, ?_⟩)
      rw [hl] at hs
      rw [show byteStringAsStr (asciiBytes "head") = some "head" from by decide] at hs
      injection hs with hs2
      subst hs2
      rw [hrm, hreq]
      decide
    · refine Or.inr (Or.inr (Or.inl ⟨hl, ?_⟩))
      rw [hl] at hs
      rw [show byteStringAsStr (asciiBytes "post") = some "post" from by decide] at hs
      injection hs with hs2
      subst hs2
      rw [hrm, hreq]
      decide
    · refine Or.inr (Or.inr (Or.inr (Or.inl ⟨hl, ?_⟩)))
      rw [hl] at hs
      rw [show byteStringAsStr (asciiBytes "put") = some "put" from by decide] at hs
      injection hs with hs2
      subst hs2
      rw [hrm, hreq]
      decide
    · refine Or.inr (Or.inr (Or.inr (Or.inr (Or.inl ⟨hl, ?_⟩))))
      rw [hl] at hs
      rw [show byteStringAsStr (asciiBytes "delete") = some "delete" from by decide] at hs
      injection hs with hs2
      subst hs2
      rw [hrm, hreq]
      decide
    · exact absurd hl (of_decide_eq_false hforb.1.1)
    · refine Or.inr (Or.inr (Or.inr (Or.inr (Or.inr ⟨hl, ?_⟩))))
      rw [hl] at hs
      rw [show byteStringAsStr (asciiBytes "options") = some "options" from by decide] at hs
      injection hs with hs2
      subst hs2
      rw [hrm, hreq]
      decide
    · exact absurd hl (of_decide_eq_false hforb.1.2)
  · exact ⟨rfl, rfl, rfl, rfl, rfl, rfl⟩

/-- Witness for claim C3 at the mixed-case token GeT. -/
theorem claim_C3_witness :
    (byteStringToLower (asciiBytes "GeT") = asciiBytes "get" ∧
      (okRequest (Request.Constructor sampleEnv
        (RequestInfo.usvString "http://example.com/a")
        { method := some (asciiBytes "GeT") })).request.method = HyperMethod.Get) ∨
    (byteStringToLower (asciiBytes "GeT") = asciiBytes "head" ∧
      (okRequest (Request.Constructor sampleEnv
        (RequestInfo.usvString "http://example.com/a")
        { method := some (asciiBytes "GeT") })).request.method = HyperMethod.Head) ∨
    (byteStringToLower (asciiBytes "GeT") = asciiBytes "post" ∧
      (okRequest (Request.Constructor sampleEnv
        (RequestInfo.usvString "http://example.com/a")
        { method := some (asciiBytes "GeT") })).request.method = HyperMethod.Post) ∨
    (byteStringToLower (asciiBytes "GeT") = asciiBytes "put" ∧
      (okRequest (Request.Constructor sampleEnv
        (RequestInfo.usvString "http://example.com/a")
        { method := some (asciiBytes "GeT") })).request.method = HyperMethod.Put) ∨
    (byteStringToLower (asciiBytes "GeT") = asciiBytes "delete" ∧
      (okRequest (Request.Constructor sampleEnv
        (RequestInfo.usvString "http://example.com/a")
        { method := some (asciiBytes "GeT") })).request.method = HyperMethod.Delete) ∨
    (byteStringToLower (asciiBytes "GeT") = asciiBytes "options" ∧
      (okRequest (Request.Constructor sampleEnv
        (RequestInfo.usvString "http://example.com/a")
        { method := some (asciiBytes "GeT") })).request.method = HyperMethod.Options) :=
  claim_C3.1 sampleEnv (RequestInfo.usvString "http://example.com/a")
    { method := some (asciiBytes "GeT") } (asciiBytes "GeT") _ rfl rfl

/-- Claim C4 (divergence record): a sequence-of-pairs headers override
is ignored by the code (step 28 replaces the effective source only for
the Headers-object shape), so the final header list is the input
request's list, not the override; the Headers-object shape does
replace. -/
theorem claim_C4 :
    ((Request.Constructor sampleEnv (RequestInfo.request headersInput)
       { headers := some (HeadersInit.byteStringSequenceSequence
           [[asciiBytes "x-a", asciiBytes "9"]]) }).isOk = true ∧
     (okRequest (Request.Constructor sampleEnv (RequestInfo.request headersInput)
       { headers := some (HeadersInit.byteStringSequenceSequence
           [[asciiBytes "x-a", asciiBytes "9"]]) })).headers.header_list =
       [("x-input", "1")]) ∧
    (okRequest (Request.Constructor sampleEnv (RequestInfo.request headersInput)
       { headers := some (HeadersInit.headers
           { guard := Guard.NoGuard, header_list := [("x-override", "2")] }) })).headers.header_list =
      [("x-override", "2")] := by
  exact ⟨⟨rfl, rfl⟩, rfl⟩

/-- Claim C5: a method override that lowercases to connect, trace or
track makes every construction end in a validation error, whatever the
input and the other options. -/
theorem claim_C5 (env : Env) (input : RequestInfo) (init : RequestInit)
    (m : ByteString) (hm : init.method = some m)
    (hforb : byteStringToLower m = asciiBytes "connect" ∨
             byteStringToLower m = asciiBytes "trace" ∨
             byteStringToLower m = asciiBytes "track") :
    isTypeError (Request.Constructor env input init) = true := by
  cases hres : Request.Constructor env input init with
  | error e => exact isTypeError_of_error e
  | ok r =>
    exfalso
    obtain ⟨temp, fm, fc, window, reqA, reqB, reqD, reqF, reqH, hdrs, ibody2, hdrs2,
      h1, h2, h3, h4, h5, h6, h7, h8, h9, h10, hr⟩ :=
      constructor_ok_decomp env input init r hres
    rw [hm] at h7
    obtain ⟨hmeth, hforbF, _, _, _⟩ := methodStep_some_ok _ _ _ h7
    rcases hforb with hl | hl | hl
    · rw [is_forbidden_method, hl] at hforbF
      exact absurd hforbF (by decide)
    · rw [is_forbidden_method, hl] at hforbF
      exact absurd hforbF (by decide)
    · rw [is_method, hl] at hmeth
      exact absurd hmeth (by decide)

/-- Witness for claim C5 at the token TrAcK. -/
theorem claim_C5_witness :
    isTypeError (Request.Constructor sampleEnv
      (RequestInfo.usvString "http://example.com/a")
      { method := some (asciiBytes "TrAcK") }) = true :=
  claim_C5 sampleEnv (RequestInfo.usvString "http://example.com/a")
    { method := some (asciiBytes "TrAcK") } (asciiBytes "TrAcK") rfl
    (Or.inr (Or.inr (by decide)))

/-- Claim C6: referrer resolution — the empty string yields NoReferrer;
an unparsable referrer is a validation error; an about:client
equivalent yields Client; a cross-origin referrer URL is a validation
error; otherwise the resolved URL is stored as the referrer. -/
theorem claim_C6 :
    (∀ env input init r, init.referrer = some "" →
       Request.Constructor env input init = Except.ok r →
       r.request.referrer = NetTraitsRequestReferrer.NoReferrer) ∧
    (∀ env input init s, init.referrer = some s → s.isEmpty = false →
       env.join s = none →
       isTypeError (Request.Constructor env input init) = true) ∧
    (∀ env input init r s u, init.referrer = some s → s.isEmpty = false →
       env.join s = some u → u.cannot_be_a_base = true → u.scheme = "about" →
       u.path = "client" →
       Request.Constructor env input init = Except.ok r →
       r.request.referrer = NetTraitsRequestReferrer.Client) ∧
    (∀ env input init s u, init.referrer = some s → s.isEmpty = false →
       env.join s = some u →
       ¬(u.cannot_be_a_base = true ∧ u.scheme = "about" ∧ u.path = "client") →
       u.origin ≠ env.base_url.origin →
       isTypeError (Request.Constructor env input init) = true) ∧
    (∀ env input init r s u, init.referrer = some s → s.isEmpty = false →
       env.join s = some u →
       ¬(u.cannot_be_a_base = true ∧ u.scheme = "about" ∧ u.path = "client") →
       u.origin = env.base_url.origin →
       Request.Constructor env input init = Except.ok r →
       r.request.referrer = NetTraitsRequestReferrer.ReferrerUrl u) := by
  refine ⟨?_, ?_, ?_, ?_, ?_⟩
  · intro env input init r hm h
    obtain ⟨temp, fm, fc, window, reqA, reqB, reqD, reqF, reqH, hdrs, ibody2, hdrs2,
      h1, h2, h3, h4, h5, h6, h7, h8, h9, h10, hr⟩ :=
      constructor_ok_decomp env input init r h
    rw [hm, referrerStep_empty env env.base_url.origin "" reqA rfl] at h4
    injection h4 with h4e
    subst h4e
    have hpr := referrer_preserved_15_25 init fm fc _ reqD reqF reqH h5 h6 h7
    have hrr : r.request.referrer = reqH.referrer := by rw [hr]
    rw [hrr, hpr]
  · intro env input init s hm hs hj
    cases hres : Request.Constructor env input init with
    | error e => exact isTypeError_of_error e
    | ok r =>
      exfalso
      obtain ⟨temp, fm, fc, window, reqA, reqB, reqD, reqF, reqH, hdrs, ibody2, hdrs2,
        h1, h2, h3, h4, h5, h6, h7, h8, h9, h10, hr⟩ :=
        constructor_ok_decomp env input init r hres
      rw [hm, referrerStep_parse_fail env env.base_url.origin s reqA hs hj] at h4
      cases h4
  · intro env input init r s u hm hs hj hcb hsch hp h
    obtain ⟨temp, fm, fc, window, reqA, reqB, reqD, reqF, reqH, hdrs, ibody2, hdrs2,
      h1, h2, h3, h4, h5, h6, h7, h8, h9, h10, hr⟩ :=
      constructor_ok_decomp env input init r h
    rw [hm, referrerStep_about_client env env.base_url.origin s u reqA hs hj hcb hsch hp] at h4
    injection h4 with h4e
    subst h4e
    have hpr := referrer_preserved_15_25 init fm fc _ reqD reqF reqH h5 h6 h7
    have hrr : r.request.referrer = reqH.referrer := by rw [hr]
    rw [hrr, hpr]
  · intro env input init s u hm hs hj hnc ho
    cases hres : Request.Constructor env input init with
    | error e => exact isTypeError_of_error e
    | ok r =>
      exfalso
      obtain ⟨temp, fm, fc, window, reqA, reqB, reqD, reqF, reqH, hdrs, ibody2, hdrs2,
        h1, h2, h3, h4, h5, h6, h7, h8, h9, h10, hr⟩ :=
        constructor_ok_decomp env input init r hres
      rw [hm, referrerStep_cross_origin env env.base_url.origin s u reqA hs hj hnc ho] at h4
      cases h4
  · intro env input init r s u hm hs hj hnc ho h
    obtain ⟨temp, fm, fc, window, reqA, reqB, reqD, reqF, reqH, hdrs, ibody2, hdrs2,
      h1, h2, h3, h4, h5, h6, h7, h8, h9, h10, hr⟩ :=
      constructor_ok_decomp env input init r h
    rw [hm, referrerStep_same_origin env env.base_url.origin s u reqA hs hj hnc ho] at h4
    injection h4 with h4e
    subst h4e
    have hpr := referrer_preserved_15_25 init fm fc _ reqD reqF reqH h5 h6 h7
    have hrr : r.request.referrer = reqH.referrer := by rw [hr]
    rw [hrr, hpr]

/-- Witness for claim C6: the five referrer behaviors at concrete
inputs over `sampleEnv`. -/
theorem claim_C6_witness :
    (okRequest (Request.Constructor sampleEnv
      (RequestInfo.usvString "http://example.com/a")
      { referrer := some "" })).request.referrer = NetTraitsRequestReferrer.NoReferrer ∧
    isTypeError (Request.Constructor sampleEnv
      (RequestInfo.usvString "http://example.com/a")
      { referrer := some "bad url" }) = true ∧
    (okRequest (Request.Constructor sampleEnv
      (RequestInfo.usvString "http://example.com/a")
      { referrer := some "about:client" })).request.referrer = NetTraitsRequestReferrer.Client ∧
    isTypeError (Request.Constructor sampleEnv
      (RequestInfo.usvString "http://example.com/a")
      { referrer := some "http://evil.example/x" }) = true ∧
    (okRequest (Request.Constructor sampleEnv
      (RequestInfo.usvString "http://example.com/a")
      { referrer := some "/same" })).request.referrer = NetTraitsRequestReferrer.ReferrerUrl sampleUrl := by
  refine ⟨?_, ?_, ?_, ?_, ?_⟩
  · exact claim_C6.1 sampleEnv (RequestInfo.usvString "http://example.com/a")
      { referrer := some "" } _ rfl rfl
  · exact claim_C6.2.1 sampleEnv (RequestInfo.usvString "http://example.com/a")
      { referrer := some "bad url" } "bad url" rfl rfl rfl
  · exact claim_C6.2.2.1 sampleEnv (RequestInfo.usvString "http://example.com/a")
      { referrer := some "about:client" } _ "about:client" aboutClientUrl rfl rfl rfl rfl rfl rfl rfl
  · exact claim_C6.2.2.2.1 sampleEnv (RequestInfo.usvString "http://example.com/a")
      { referrer := some "http://evil.example/x" } "http://evil.example/x" crossUrl
      rfl rfl rfl (by decide) (by decide)
  · exact claim_C6.2.2.2.2 sampleEnv (RequestInfo.usvString "http://example.com/a")
      { referrer := some "/same" } _ "/same" sampleUrl rfl rfl rfl (by decide) rfl rfl

/-- Claim C7: the content-type hint of body extraction is appended only
when no Content-Type header exists yet; an existing Content-Type header
is left untouched. The last conjunct is the end-to-end instance: an
explicit Content-Type text/plain survives a body whose extraction hints
application/xml. -/
theorem claim_C7 :
    (∀ env b ct ibody headers, b.content_type = some ct →
       headersHas headers.header_list "Content-Type" = true →
       bodyExtractionStep env (some (some b)) ibody headers =
         Except.ok (some b.bytes, headers)) ∧
    (∀ env b ct ibody headers, b.content_type = some ct →
       headersHas headers.header_list "Content-Type" = false →
       env.guardAllows headers.guard "content-type" = true →
       bodyExtractionStep env (some (some b)) ibody headers =
         Except.ok (some b.bytes,
           { headers with header_list := headers.header_list ++ [("content-type", ct)] })) ∧
    (okRequest (Request.Constructor sampleEnv
      (RequestInfo.usvString "http://example.com/a")
      { method := some (asciiBytes "POST"),
        headers := some (HeadersInit.headers
          { guard := Guard.NoGuard, header_list := [("content-type", "text/plain")] }),
        body := some (some { bytes := [7], content_type := some "application/xml" }) })).headers.header_list =
      [("content-type", "text/plain")] := by
  refine ⟨?_, ?_, rfl⟩
  · intro env b ct ibody headers hct hhas
    simp [bodyExtractionStep, BodyInit.extract, hct, hhas]
  · intro env b ct ibody headers hct hhas hga
    simp [bodyExtractionStep, BodyInit.extract, headersAppend, hct, hhas,
      show strToLower "Content-Type" = "content-type" from by decide, hga]

/-- Witness for claim C7: no overwrite of an existing Content-Type. -/
theorem claim_C7_witness :
    bodyExtractionStep sampleEnv
      (some (some { bytes := [7], content_type := some "application/xml" })) none
      { guard := Guard.RequestGuard, header_list := [("content-type", "text/plain")] } =
      Except.ok (some [7],
        { guard := Guard.RequestGuard, header_list := [("content-type", "text/plain")] }) :=
  claim_C7.1 sampleEnv { bytes := [7], content_type := some "application/xml" }
    "application/xml" none
    { guard := Guard.RequestGuard, header_list := [("content-type", "text/plain")] }
    rfl (by decide)

/-- Claim C8: constructing from a parseable credential-free URL string
with an empty options bag succeeds with mode CORS, credentials Omit,
method GET and an unused body; with embedded credentials it is a
validation error whatever the options. -/
theorem claim_C8 :
    (∀ env s url, env.join s = some url → includes_credentials url = false →
      ((Request.Constructor env (RequestInfo.usvString s) {}).isOk = true ∧
       (okRequest (Request.Constructor env (RequestInfo.usvString s) {})).request.mode =
         NetTraitsRequestMode.CORSMode ∧
       (okRequest (Request.Constructor env (RequestInfo.usvString s) {})).request.credentials_mode =
         NetTraitsRequestCredentials.Omit ∧
       (okRequest (Request.Constructor env (RequestInfo.usvString s) {})).request.method =
         HyperMethod.Get ∧
       (okRequest (Request.Constructor env (RequestInfo.usvString s) {})).body_used = false)) ∧
    (∀ env s url init, env.join s = some url → includes_credentials url = true →
       isTypeError (Request.Constructor env (RequestInfo.usvString s) init) = true) := by
  constructor
  · intro env s url hj hc
    rw [constructor_empty_init env s url hj hc]
    exact ⟨rfl, rfl, rfl, rfl, rfl⟩
  · intro env s url init hj hc
    cases hres : Request.Constructor env (RequestInfo.usvString s) init with
    | error e => exact isTypeError_of_error e
    | ok r =>
      exfalso
      obtain ⟨temp, fm, fc, window, reqA, reqB, reqD, reqF, reqH, hdrs, ibody2, hdrs2,
        h1, h2, h3, h4, h5, h6, h7, h8, h9, h10, hr⟩ :=
        constructor_ok_decomp env (RequestInfo.usvString s) init r hres
      simp [inputResolution, hj, hc] at h1

/-- Witness for claim C8 over `sampleEnv`. -/
theorem claim_C8_witness :
    ((Request.Constructor sampleEnv (RequestInfo.usvString "http://example.com/a") {}).isOk = true ∧
     (okRequest (Request.Constructor sampleEnv
       (RequestInfo.usvString "http://example.com/a") {})).request.mode =
       NetTraitsRequestMode.CORSMode ∧
     (okRequest (Request.Constructor sampleEnv
       (RequestInfo.usvString "http://example.com/a") {})).request.credentials_mode =
       NetTraitsRequestCredentials.Omit ∧
     (okRequest (Request.Constructor sampleEnv
       (RequestInfo.usvString "http://example.com/a") {})).request.method = HyperMethod.Get ∧
     (okRequest (Request.Constructor sampleEnv
       (RequestInfo.usvString "http://example.com/a") {})).body_used = false) ∧
    isTypeError (Request.Constructor sampleEnv
      (RequestInfo.usvString "http://user@example.com/a") {}) = true :=
  ⟨claim_C8.1 sampleEnv "http://example.com/a" sampleUrl rfl rfl,
   claim_C8.2 sampleEnv "http://user@example.com/a" credUrl {} rfl rfl⟩

/-- Claim C9: body consumption is monotonic — taking a present body
delivers it, sets body-used, and a second take returns the no-body
result with body-used still set; body-used never reverts. -/
theorem claim_C9 :
    (∀ r b, r.request.body = some b →
       (Request.take_body r).1 = some b ∧
       Request.BodyUsed (Request.take_body r).2 = true ∧
       (Request.take_body (Request.take_body r).2).1 = none ∧
       Request.BodyUsed (Request.take_body (Request.take_body r).2).2 = true) ∧
    (∀ r, Request.BodyUsed r = true → Request.BodyUsed (Request.take_body r).2 = true) := by
  constructor
  · intro r b hb
    simp [Request.take_body, Request.BodyUsed, hb]
  · intro r h
    cases hb : r.request.body <;>
      simp [Request.take_body, Request.BodyUsed, hb, h] at *
    exact h

/-- Witness for claim C9 at a concrete bodied request. -/
theorem claim_C9_witness :
    (Request.take_body getBodyInput).1 = some [1, 2, 3] ∧
    Request.BodyUsed (Request.take_body getBodyInput).2 = true ∧
    (Request.take_body (Request.take_body getBodyInput).2).1 = none ∧
    Request.BodyUsed (Request.take_body (Request.take_body getBodyInput).2).2 = true :=
  claim_C9.1 getBodyInput [1, 2, 3] rfl

/-- Claim C10: taking an absent body returns the no-body result and
leaves body-used unchanged; body-used can only become set by taking a
present body. -/
theorem claim_C10 :
    (∀ r, r.request.body = none →
       (Request.take_body r).1 = none ∧
       Request.BodyUsed (Request.take_body r).2 = Request.BodyUsed r) ∧
    (∀ r, Request.BodyUsed (Request.take_body r).2 = true →
       Request.BodyUsed r = true ∨ r.request.body ≠ none) := by
  constructor
  · intro r hb
    simp [Request.take_body, Request.BodyUsed, hb]
  · intro r h
    cases hb : r.request.body with
    | none =>
      simp [Request.take_body, Request.BodyUsed, hb] at h
      exact Or.inl h
    | some b => exact Or.inr (by simp)

/-- Witness for claim C10 at a concrete bodiless request. -/
theorem claim_C10_witness :
    (Request.take_body headersInput).1 = none ∧
    Request.BodyUsed (Request.take_body headersInput).2 = Request.BodyUsed headersInput :=
  claim_C10.1 headersInput rfl

end Servo
